import Mathlib

/-!
Verification of the LLMVRAMCalculator memory-estimation core
(src/LLMVRAMCalculator/LLMVRAMCalculator.py).

The Python core is pure arithmetic over floats and dict lookups.  We embed it
shallowly:

* Python floats are modelled as exact rationals (`ℚ`); Python's true division
  `/` is rational division, raising `ZeroDivisionError` on a zero divisor
  (`pyDiv`).
* A model-configuration dict is a record of `Option ℚ` fields; reading an
  absent key raises `KeyError key` (`getField`), exactly as `dict.__getitem__`.
* `round(x, 2)` is round-half-to-even at two decimal places (`pyRound2`).
* Fallible computations return `Except PyErr ℚ`; sequencing follows Python's
  left-to-right evaluation order, so the first failing read wins.
* The `print` on a non-standard batch size is modelled as a warning count
  paired with the numeric result in `compute_buffer_calc`.
* The metadata resolver (`_model_config`, network code) is out of scope: the
  facades here take the already-resolved configuration record as argument.
-/

/-- Python exceptions the embedded core can raise. -/
inductive PyErr where
  | keyError : String → PyErr
  | zeroDivision : PyErr
deriving DecidableEq, Repr

/-- The model-architecture descriptor as consumed by the core: the five fields
the Python code reads from the config dict, each possibly absent. -/
structure ModelConfig where
  hidden_size : Option ℚ
  num_attention_heads : Option ℚ
  num_key_value_heads : Option ℚ
  num_hidden_layers : Option ℚ
  parameters : Option ℚ
deriving DecidableEq, Repr

/-- `d[key]` on the descriptor: the value, or `KeyError key` when absent. -/
def getField (v : Option ℚ) (key : String) : Except PyErr ℚ :=
  match v with
  | some x => .ok x
  | none => .error (.keyError key)

/-- Python true division on rationals: `ZeroDivisionError` on zero divisor. -/
def pyDiv (a b : ℚ) : Except PyErr ℚ :=
  if b = 0 then .error .zeroDivision else .ok (a / b)

/-- Round-half-to-even to the nearest integer (Python's rounding mode). -/
def roundHalfEven (x : ℚ) : ℤ :=
  if x - ⌊x⌋ < 1/2 then ⌊x⌋
  else if 1/2 < x - ⌊x⌋ then ⌊x⌋ + 1
  else if ⌊x⌋ % 2 = 0 then ⌊x⌋ else ⌊x⌋ + 1

/-- Python's `round(x, 2)`: round-half-to-even at two decimal places. -/
def pyRound2 (x : ℚ) : ℚ :=
  (roundHalfEven (100 * x) : ℚ) / 100

/-- The `_GGUF_QUANTS` table, in source order. -/
def GGUF_QUANTS : List (String × ℚ) :=
  [("Q2_K", 3.35), ("Q3_K_S", 3.5), ("Q3_K_M", 3.91), ("Q3_K_L", 4.27),
   ("Q4_0", 4.55), ("Q4_K_S", 4.58), ("Q4_K_M", 4.85), ("Q5_0", 5.54),
   ("Q5_K_S", 5.54), ("Q5_K_M", 5.69), ("Q6_K", 6.59), ("Q8_0", 8.5)]

/-- `get_gguf_quants()`: the list of table keys, in order. -/
def get_gguf_quants : List String := GGUF_QUANTS.map Prod.fst

/-- `_GGUF_QUANTS.get(q, 0)`: table lookup with default 0. -/
def ggufQuantsGet (q : String) : ℚ :=
  ((GGUF_QUANTS.find? (fun p => p.1 == q)).map Prod.snd).getD 0

/-- `_input_buffer(context, model_config, bsz)`: sum of the six element-count
buffers; the only dict read is `hidden_size`. -/
def input_buffer_calc (context : ℚ) (cfg : ModelConfig) (bsz : ℚ) :
    Except PyErr ℚ := do
  let inp_tokens := bsz
  let hs ← getField cfg.hidden_size "hidden_size"
  let inp_embd := hs * bsz
  let inp_pos := bsz
  let inp_KQ_mask := context * bsz
  let inp_K_shift := context
  let inp_sum := bsz
  pure (inp_tokens + inp_embd + inp_pos + inp_KQ_mask + inp_K_shift + inp_sum)

/-- `_compute_buffer(context, model_config, bsz)`: the printed warning is
modelled as a count (1 when `bsz != 512`, else 0) paired with the value
`(context / 1024 * 2 + 0.75) * num_attention_heads * 1024 * 1024`. -/
def compute_buffer_calc (context : ℚ) (cfg : ModelConfig) (bsz : ℚ) :
    Nat × Except PyErr ℚ :=
  (if bsz = 512 then 0 else 1,
   do
     let nh ← getField cfg.num_attention_heads "num_attention_heads"
     pure ((context / 1024 * 2 + 3/4) * nh * 1024 * 1024))

/-- `_kv_cache(context, model_config, cache_bit)`, reads and divisions in
Python evaluation order. -/
def kv_cache_calc (context : ℚ) (cfg : ModelConfig) (cache_bit : ℚ) :
    Except PyErr ℚ := do
  let nh ← getField cfg.num_attention_heads "num_attention_heads"
  let nkv ← getField cfg.num_key_value_heads "num_key_value_heads"
  let n_gqa ← pyDiv nh nkv
  let hs ← getField cfg.hidden_size "hidden_size"
  let n_embd_gqa ← pyDiv hs n_gqa
  let nl ← getField cfg.num_hidden_layers "num_hidden_layers"
  let n_elements := n_embd_gqa * (nl * context)
  let size := 2 * n_elements
  pure (size * (cache_bit / 8))

/-- `_context_size(context, model_config, bsz, cache_bit)`: rounded sum of the
three buffers, summands evaluated left to right. -/
def context_size_calc (context : ℚ) (cfg : ModelConfig) (bsz : ℚ)
    (cache_bit : ℚ) : Except PyErr ℚ := do
  let ib ← input_buffer_calc context cfg bsz
  let kv ← kv_cache_calc context cfg cache_bit
  let cb ← (compute_buffer_calc context cfg bsz).2
  pure (pyRound2 (ib + kv + cb))

/-- `_model_size(model_config, bpw)`: `round(parameters * bpw / 8, 2)`. -/
def model_size_calc (cfg : ModelConfig) (bpw : ℚ) : Except PyErr ℚ := do
  let p ← getField cfg.parameters "parameters"
  pure (pyRound2 (p * bpw / 8))

/-- The facade result record `{model_size, context_size, total_size}`. -/
structure SizeResult where
  model_size : ℚ
  context_size : ℚ
  total_size : ℚ
deriving DecidableEq, Repr

/-- `compute_sizes_exl2(hf_model, context, cache_bit=16, bpw=4.5)`, with the
resolver abstracted away: the facade receives the resolved descriptor. -/
def compute_sizes_exl2 (cfg : ModelConfig) (context : ℚ)
    (cache_bit : ℚ := 16) (bpw : ℚ := 4.5) : Except PyErr SizeResult := do
  let batch_size : ℚ := 512
  let m ← model_size_calc cfg bpw
  let model_sz := m / 2 ^ 30
  let c ← context_size_calc context cfg batch_size cache_bit
  let context_sz := c / 2 ^ 30
  pure ⟨model_sz, context_sz, model_sz + context_sz⟩

/-- `compute_sizes_gguf(hf_model, context, quant_size="")`, resolver
abstracted away; cache bits fixed at 16, batch size fixed at 512. -/
def compute_sizes_gguf (cfg : ModelConfig) (context : ℚ)
    (quant_size : String := "") : Except PyErr SizeResult := do
  let batch_size : ℚ := 512
  let bpw := ggufQuantsGet quant_size
  let m ← model_size_calc cfg bpw
  let model_sz := m / 2 ^ 30
  let c ← context_size_calc context cfg batch_size 16
  let context_sz := c / 2 ^ 30
  pure ⟨model_sz, context_sz, model_sz + context_sz⟩

/-- A fully-populated descriptor, used to state claims about valid inputs. -/
def mkConfig (hs nh nkv nl p : ℚ) : ModelConfig :=
  ⟨some hs, some nh, some nkv, some nl, some p⟩

/-- The descriptor of the spec's concrete scenario (claim C2). -/
def specConfig : ModelConfig :=
  mkConfig 4096 32 32 32 7000000000

/-- All five required descriptor fields are present. -/
def requiredPresent (cfg : ModelConfig) : Prop :=
  cfg.hidden_size ≠ none ∧ cfg.num_attention_heads ≠ none
    ∧ cfg.num_key_value_heads ≠ none ∧ cfg.num_hidden_layers ≠ none
    ∧ cfg.parameters ≠ none

/-! ### Closed forms on fully-populated descriptors -/

theorem kv_cache_calc_ok (context hs nh nkv nl : ℚ) (p : Option ℚ)
    (cache_bit : ℚ) (hnkv : nkv ≠ 0) (hgqa : nh / nkv ≠ 0) :
    kv_cache_calc context ⟨some hs, some nh, some nkv, some nl, p⟩ cache_bit
      = .ok (2 * (hs / (nh / nkv) * (nl * context)) * (cache_bit / 8)) := by
  simp [kv_cache_calc, getField, pyDiv, hnkv, hgqa, bind, Except.bind, pure,
    Except.pure]

theorem input_buffer_calc_ok (context hs : ℚ) (o1 o2 o3 p : Option ℚ)
    (bsz : ℚ) :
    input_buffer_calc context ⟨some hs, o1, o2, o3, p⟩ bsz
      = .ok (bsz + hs * bsz + bsz + context * bsz + context + bsz) := by
  simp [input_buffer_calc, getField, bind, Except.bind, pure, Except.pure]

theorem compute_buffer_calc_ok (context : ℚ) (o0 : Option ℚ) (nh : ℚ)
    (o2 o3 p : Option ℚ) (bsz : ℚ) :
    compute_buffer_calc context ⟨o0, some nh, o2, o3, p⟩ bsz
      = (if bsz = 512 then 0 else 1,
         .ok ((context / 1024 * 2 + 3/4) * nh * 1024 * 1024)) := by
  simp [compute_buffer_calc, getField, bind, Except.bind, pure, Except.pure]

theorem context_size_calc_ok (context hs nh nkv nl : ℚ) (p : Option ℚ)
    (bsz cache_bit : ℚ) (hnkv : nkv ≠ 0) (hgqa : nh / nkv ≠ 0) :
    context_size_calc context ⟨some hs, some nh, some nkv, some nl, p⟩ bsz
        cache_bit
      = .ok (pyRound2 ((bsz + hs * bsz + bsz + context * bsz + context + bsz)
          + 2 * (hs / (nh / nkv) * (nl * context)) * (cache_bit / 8)
          + (context / 1024 * 2 + 3/4) * nh * 1024 * 1024)) := by
  rw [context_size_calc, input_buffer_calc_ok, kv_cache_calc_ok _ _ _ _ _ _ _
    hnkv hgqa, compute_buffer_calc_ok]
  rfl

theorem model_size_calc_ok (o0 o1 o2 o3 : Option ℚ) (p bpw : ℚ) :
    model_size_calc ⟨o0, o1, o2, o3, some p⟩ bpw
      = .ok (pyRound2 (p * bpw / 8)) := by
  simp [model_size_calc, getField, bind, Except.bind, pure, Except.pure]

theorem compute_sizes_exl2_ok (hs nh nkv nl p : ℚ)
    (context cache_bit bpw : ℚ) (hnkv : nkv ≠ 0) (hgqa : nh / nkv ≠ 0) :
    compute_sizes_exl2 (mkConfig hs nh nkv nl p) context cache_bit bpw
      = .ok ⟨pyRound2 (p * bpw / 8) / 2 ^ 30,
             pyRound2 ((512 + hs * 512 + 512 + context * 512 + context + 512)
               + 2 * (hs / (nh / nkv) * (nl * context)) * (cache_bit / 8)
               + (context / 1024 * 2 + 3/4) * nh * 1024 * 1024) / 2 ^ 30,
             pyRound2 (p * bpw / 8) / 2 ^ 30
               + pyRound2 ((512 + hs * 512 + 512 + context * 512 + context
                   + 512)
                 + 2 * (hs / (nh / nkv) * (nl * context)) * (cache_bit / 8)
                 + (context / 1024 * 2 + 3/4) * nh * 1024 * 1024) / 2 ^ 30⟩ := by
  rw [compute_sizes_exl2, mkConfig, model_size_calc_ok]
  rw [context_size_calc_ok _ _ _ _ _ _ _ _ hnkv hgqa]
  rfl

theorem compute_sizes_gguf_ok (hs nh nkv nl p : ℚ) (context : ℚ) (q : String)
    (hnkv : nkv ≠ 0) (hgqa : nh / nkv ≠ 0) :
    compute_sizes_gguf (mkConfig hs nh nkv nl p) context q
      = .ok ⟨pyRound2 (p * ggufQuantsGet q / 8) / 2 ^ 30,
             pyRound2 ((512 + hs * 512 + 512 + context * 512 + context + 512)
               + 2 * (hs / (nh / nkv) * (nl * context)) * ((16 : ℚ) / 8)
               + (context / 1024 * 2 + 3/4) * nh * 1024 * 1024) / 2 ^ 30,
             pyRound2 (p * ggufQuantsGet q / 8) / 2 ^ 30
               + pyRound2 ((512 + hs * 512 + 512 + context * 512 + context
                   + 512)
                 + 2 * (hs / (nh / nkv) * (nl * context)) * ((16 : ℚ) / 8)
                 + (context / 1024 * 2 + 3/4) * nh * 1024 * 1024) / 2 ^ 30⟩ := by
  rw [compute_sizes_gguf, mkConfig, model_size_calc_ok]
  rw [context_size_calc_ok _ _ _ _ _ _ _ _ hnkv hgqa]
  rfl

/-! ### Properties of the rounding function -/

theorem roundHalfEven_ge_floor (x : ℚ) : ⌊x⌋ ≤ roundHalfEven x := by
  unfold roundHalfEven
  split_ifs <;> omega

theorem roundHalfEven_le_floor_add_one (x : ℚ) :
    roundHalfEven x ≤ ⌊x⌋ + 1 := by
  unfold roundHalfEven
  split_ifs <;> omega

theorem roundHalfEven_mono {x y : ℚ} (h : x ≤ y) :
    roundHalfEven x ≤ roundHalfEven y := by
  rcases eq_or_lt_of_le (Int.floor_mono h) with hf | hf
  · unfold roundHalfEven
    rw [← hf]
    have hxy : x - (⌊x⌋ : ℚ) ≤ y - (⌊x⌋ : ℚ) := by linarith
    split_ifs <;> first | omega | linarith
  · calc roundHalfEven x ≤ ⌊x⌋ + 1 := roundHalfEven_le_floor_add_one x
      _ ≤ ⌊y⌋ := by omega
      _ ≤ roundHalfEven y := roundHalfEven_ge_floor y

theorem pyRound2_mono {x y : ℚ} (h : x ≤ y) : pyRound2 x ≤ pyRound2 y := by
  have h100 : (100 : ℚ) * x ≤ 100 * y := by linarith
  have hr := roundHalfEven_mono h100
  have hr' : ((roundHalfEven (100 * x) : ℤ) : ℚ)
      ≤ ((roundHalfEven (100 * y) : ℤ) : ℚ) := by exact_mod_cast hr
  unfold pyRound2
  linarith

/-! ### Inversion of the facades on successful results -/

theorem compute_sizes_exl2_ok_elim {cfg : ModelConfig}
    {context cache_bit bpw : ℚ} {r : SizeResult}
    (h : compute_sizes_exl2 cfg context cache_bit bpw = .ok r) :
    ∃ m c, model_size_calc cfg bpw = .ok m
      ∧ context_size_calc context cfg 512 cache_bit = .ok c
      ∧ r = ⟨m / 2 ^ 30, c / 2 ^ 30, m / 2 ^ 30 + c / 2 ^ 30⟩ := by
  simp only [compute_sizes_exl2] at h
  cases hm : model_size_calc cfg bpw with
  | error e => rw [hm] at h; exact absurd h (by simp [bind, Except.bind])
  | ok m =>
    rw [hm] at h
    cases hc : context_size_calc context cfg 512 cache_bit with
    | error e =>
      rw [hc] at h; exact absurd h (by simp [bind, Except.bind])
    | ok c =>
      rw [hc] at h
      simp only [bind, Except.bind, pure, Except.pure, Except.ok.injEq] at h
      exact ⟨m, c, rfl, rfl, h.symm⟩

theorem compute_sizes_gguf_ok_elim {cfg : ModelConfig} {context : ℚ}
    {q : String} {r : SizeResult}
    (h : compute_sizes_gguf cfg context q = .ok r) :
    ∃ m c, model_size_calc cfg (ggufQuantsGet q) = .ok m
      ∧ context_size_calc context cfg 512 16 = .ok c
      ∧ r = ⟨m / 2 ^ 30, c / 2 ^ 30, m / 2 ^ 30 + c / 2 ^ 30⟩ := by
  simp only [compute_sizes_gguf] at h
  cases hm : model_size_calc cfg (ggufQuantsGet q) with
  | error e => rw [hm] at h; exact absurd h (by simp [bind, Except.bind])
  | ok m =>
    rw [hm] at h
    cases hc : context_size_calc context cfg 512 16 with
    | error e =>
      rw [hc] at h; exact absurd h (by simp [bind, Except.bind])
    | ok c =>
      rw [hc] at h
      simp only [bind, Except.bind, pure, Except.pure, Except.ok.injEq] at h
      exact ⟨m, c, rfl, rfl, h.symm⟩

/-! ### Evaluation lemmas at concrete inputs -/

theorem roundHalfEven_intCast (n : ℤ) : roundHalfEven (n : ℚ) = n := by
  unfold roundHalfEven
  rw [Int.floor_intCast]
  norm_num

theorem pyRound2_intCast (n : ℤ) : pyRound2 (n : ℚ) = n := by
  unfold pyRound2
  rw [show (100 : ℚ) * n = ((100 * n : ℤ) : ℚ) by push_cast; ring,
    roundHalfEven_intCast]
  push_cast
  rw [mul_comm, mul_div_assoc]
  norm_num

theorem eval_exl2_spec :
    compute_sizes_exl2 specConfig 8192 16 4.5
      = .ok ⟨3937500000 / 2 ^ 30, 4863305216 / 2 ^ 30,
          8800805216 / 2 ^ 30⟩ := by
  rw [specConfig, compute_sizes_exl2_ok 4096 32 32 32 7000000000 8192 16 4.5
    (by norm_num) (by norm_num)]
  rw [show ((7000000000 : ℚ) * 4.5 / 8) = ((3937500000 : ℤ) : ℚ) by norm_num]
  rw [show ((512 + (4096 : ℚ) * 512 + 512 + 8192 * 512 + 8192 + 512)
      + 2 * (4096 / ((32 : ℚ) / 32) * (32 * 8192)) * ((16 : ℚ) / 8)
      + ((8192 : ℚ) / 1024 * 2 + 3/4) * 32 * 1024 * 1024)
    = ((4863305216 : ℤ) : ℚ) by norm_num]
  rw [pyRound2_intCast, pyRound2_intCast]
  norm_num

theorem eval_exl2_spec_bpw5 :
    compute_sizes_exl2 specConfig 8192 16 5
      = .ok ⟨4375000000 / 2 ^ 30, 4863305216 / 2 ^ 30,
          9238305216 / 2 ^ 30⟩ := by
  rw [specConfig, compute_sizes_exl2_ok 4096 32 32 32 7000000000 8192 16 5
    (by norm_num) (by norm_num)]
  rw [show ((7000000000 : ℚ) * 5 / 8) = ((4375000000 : ℤ) : ℚ) by norm_num]
  rw [show ((512 + (4096 : ℚ) * 512 + 512 + 8192 * 512 + 8192 + 512)
      + 2 * (4096 / ((32 : ℚ) / 32) * (32 * 8192)) * ((16 : ℚ) / 8)
      + ((8192 : ℚ) / 1024 * 2 + 3/4) * 32 * 1024 * 1024)
    = ((4863305216 : ℤ) : ℚ) by norm_num]
  rw [pyRound2_intCast, pyRound2_intCast]
  norm_num

theorem eval_exl2_spec_cache8 :
    compute_sizes_exl2 specConfig 8192 8 4.5
      = .ok ⟨3937500000 / 2 ^ 30, 2715821568 / 2 ^ 30,
          6653321568 / 2 ^ 30⟩ := by
  rw [specConfig, compute_sizes_exl2_ok 4096 32 32 32 7000000000 8192 8 4.5
    (by norm_num) (by norm_num)]
  rw [show ((7000000000 : ℚ) * 4.5 / 8) = ((3937500000 : ℤ) : ℚ) by norm_num]
  rw [show ((512 + (4096 : ℚ) * 512 + 512 + 8192 * 512 + 8192 + 512)
      + 2 * (4096 / ((32 : ℚ) / 32) * (32 * 8192)) * ((8 : ℚ) / 8)
      + ((8192 : ℚ) / 1024 * 2 + 3/4) * 32 * 1024 * 1024)
    = ((2715821568 : ℤ) : ℚ) by norm_num]
  rw [pyRound2_intCast, pyRound2_intCast]
  norm_num

theorem eval_gguf_spec_Q4KS :
    compute_sizes_gguf specConfig 8192 "Q4_K_S"
      = .ok ⟨4007500000 / 2 ^ 30, 4863305216 / 2 ^ 30,
          8870805216 / 2 ^ 30⟩ := by
  rw [specConfig, compute_sizes_gguf_ok 4096 32 32 32 7000000000 8192 "Q4_K_S"
    (by norm_num) (by norm_num)]
  rw [show ggufQuantsGet "Q4_K_S" = 4.58 from rfl]
  rw [show ((7000000000 : ℚ) * 4.58 / 8) = ((4007500000 : ℤ) : ℚ) by norm_num]
  rw [show ((512 + (4096 : ℚ) * 512 + 512 + 8192 * 512 + 8192 + 512)
      + 2 * (4096 / ((32 : ℚ) / 32) * (32 * 8192)) * ((16 : ℚ) / 8)
      + ((8192 : ℚ) / 1024 * 2 + 3/4) * 32 * 1024 * 1024)
    = ((4863305216 : ℤ) : ℚ) by norm_num]
  rw [pyRound2_intCast, pyRound2_intCast]
  norm_num

theorem eval_gguf_small_unknown :
    compute_sizes_gguf (mkConfig 4096 32 32 32 1000) 1024 "Q4"
      = .ok ⟨0, 631769600 / 2 ^ 30, 631769600 / 2 ^ 30⟩ := by
  rw [compute_sizes_gguf_ok 4096 32 32 32 1000 1024 "Q4"
    (by norm_num) (by norm_num)]
  rw [show ggufQuantsGet "Q4" = 0 from rfl]
  rw [show ((1000 : ℚ) * 0 / 8) = ((0 : ℤ) : ℚ) by norm_num]
  rw [show ((512 + (4096 : ℚ) * 512 + 512 + 1024 * 512 + 1024 + 512)
      + 2 * (4096 / ((32 : ℚ) / 32) * (32 * 1024)) * ((16 : ℚ) / 8)
      + ((1024 : ℚ) / 1024 * 2 + 3/4) * 32 * 1024 * 1024)
    = ((631769600 : ℤ) : ℚ) by norm_num]
  rw [pyRound2_intCast, pyRound2_intCast]
  norm_num

theorem eval_gguf_small_default :
    compute_sizes_gguf (mkConfig 4096 32 32 32 1000) 1024 ""
      = .ok ⟨0, 631769600 / 2 ^ 30, 631769600 / 2 ^ 30⟩ := by
  rw [compute_sizes_gguf_ok 4096 32 32 32 1000 1024 ""
    (by norm_num) (by norm_num)]
  rw [show ggufQuantsGet "" = 0 from rfl]
  rw [show ((1000 : ℚ) * 0 / 8) = ((0 : ℤ) : ℚ) by norm_num]
  rw [show ((512 + (4096 : ℚ) * 512 + 512 + 1024 * 512 + 1024 + 512)
      + 2 * (4096 / ((32 : ℚ) / 32) * (32 * 1024)) * ((16 : ℚ) / 8)
      + ((1024 : ℚ) / 1024 * 2 + 3/4) * 32 * 1024 * 1024)
    = ((631769600 : ℤ) : ℚ) by norm_num]
  rw [pyRound2_intCast, pyRound2_intCast]
  norm_num

theorem eval_ctx_1024 :
    context_size_calc 1024 (mkConfig 4096 32 32 32 7000000000) 512 16
      = .ok 631769600 := by
  rw [mkConfig, context_size_calc_ok 1024 4096 32 32 32 _ 512 16
    (by norm_num) (by norm_num)]
  rw [show ((512 + (4096 : ℚ) * 512 + 512 + 1024 * 512 + 1024 + 512)
      + 2 * (4096 / ((32 : ℚ) / 32) * (32 * 1024)) * ((16 : ℚ) / 8)
      + ((1024 : ℚ) / 1024 * 2 + 3/4) * 32 * 1024 * 1024)
    = ((631769600 : ℤ) : ℚ) by norm_num]
  rw [pyRound2_intCast]
  norm_num

theorem eval_ctx_8192 :
    context_size_calc 8192 (mkConfig 4096 32 32 32 7000000000) 512 16
      = .ok 4863305216 := by
  rw [mkConfig, context_size_calc_ok 8192 4096 32 32 32 _ 512 16
    (by norm_num) (by norm_num)]
  rw [show ((512 + (4096 : ℚ) * 512 + 512 + 8192 * 512 + 8192 + 512)
      + 2 * (4096 / ((32 : ℚ) / 32) * (32 * 8192)) * ((16 : ℚ) / 8)
      + ((8192 : ℚ) / 1024 * 2 + 3/4) * 32 * 1024 * 1024)
    = ((4863305216 : ℤ) : ℚ) by norm_num]
  rw [pyRound2_intCast]
  norm_num

/-! ### Claim theorems -/

/-- C1: for every descriptor with positive hidden_size, num_attention_heads,
num_key_value_heads, num_hidden_layers and every positive context_length and
cache_bits, the KV-cache estimator returns
2 * (hidden_size / (num_attention_heads / num_key_value_heads)) *
num_hidden_layers * context_length * (cache_bits / 8) bytes, the head ratio
being exact division (not integer-truncated); when the two head counts agree
this equals 2 * hidden_size * num_hidden_layers * context_length *
(cache_bits / 8). -/
theorem C1_kv_cache_formula (hs nh nkv nl context cache_bit : ℚ)
    (p : Option ℚ) (hhs : 0 < hs) (hnh : 0 < nh) (hnkv : 0 < nkv)
    (hnl : 0 < nl) (hctx : 0 < context) (hcb : 0 < cache_bit) :
    kv_cache_calc context ⟨some hs, some nh, some nkv, some nl, p⟩ cache_bit
      = .ok (2 * (hs / (nh / nkv)) * nl * context * (cache_bit / 8))
    ∧ (nh = nkv →
        kv_cache_calc context ⟨some hs, some nh, some nkv, some nl, p⟩
            cache_bit
          = .ok (2 * hs * nl * context * (cache_bit / 8))) := by
  have hnkv' : nkv ≠ 0 := ne_of_gt hnkv
  have hgqa : nh / nkv ≠ 0 := div_ne_zero (ne_of_gt hnh) hnkv'
  rw [kv_cache_calc_ok _ _ _ _ _ _ _ hnkv' hgqa]
  constructor
  · congr 1; ring
  · intro he
    subst he
    rw [div_self hnkv']
    congr 1
    rw [div_one]
    ring

/-- Witness for C1 at a multi-head-attention descriptor: hidden size 4096,
32 attention heads, 32 key/value heads, 32 layers, context 8192, 16-bit
cache. -/
theorem C1_kv_cache_formula_witness :
    kv_cache_calc 8192 ⟨some 4096, some 32, some 32, some 32, none⟩ 16
      = .ok (2 * ((4096 : ℚ) / (32 / 32)) * 32 * 8192 * (16 / 8))
    ∧ ((32 : ℚ) = 32 →
        kv_cache_calc 8192 ⟨some 4096, some 32, some 32, some 32, none⟩ 16
          = .ok (2 * (4096 : ℚ) * 32 * 8192 * (16 / 8))) :=
  C1_kv_cache_formula 4096 32 32 32 8192 16 none (by norm_num) (by norm_num)
    (by norm_num) (by norm_num) (by norm_num) (by norm_num)

/-- C2 counterexample: at the descriptor the claim names (hidden 4096,
32 attention heads, 32 key/value heads, 32 layers, 7e9 parameters) with
context 8192, cache 16 bits, bpw 4.5, the engine returns model size
3937500000 bytes (about 3.67 GiB, below 3.78, so not about 3.79), context
size 4863305216 bytes (about 4.53 GiB, above 1.54, so not about 1.53), and
total about 8.20 GiB (above 5.33, so not about 5.32). -/
theorem C2_concrete_scenario_counterexample :
    compute_sizes_exl2 specConfig 8192 16 4.5
      = .ok ⟨3937500000 / 2 ^ 30, 4863305216 / 2 ^ 30, 8800805216 / 2 ^ 30⟩
    ∧ (3937500000 : ℚ) / 2 ^ 30 < 378 / 100
    ∧ (154 : ℚ) / 100 < 4863305216 / 2 ^ 30
    ∧ (533 : ℚ) / 100 < 8800805216 / 2 ^ 30 :=
  ⟨eval_exl2_spec, by norm_num, by norm_num, by norm_num⟩

/-- C2 amended: at that descriptor and those runtime parameters the engine
yields model size about 3.67 GiB, context size about 4.53 GiB and total about
8.20 GiB, each within half a hundredth of a GiB (two decimal places). -/
theorem C2_concrete_scenario_amended :
    compute_sizes_exl2 specConfig 8192 16 4.5
      = .ok ⟨3937500000 / 2 ^ 30, 4863305216 / 2 ^ 30, 8800805216 / 2 ^ 30⟩
    ∧ |(3937500000 : ℚ) / 2 ^ 30 - 367 / 100| < 1 / 200
    ∧ |(4863305216 : ℚ) / 2 ^ 30 - 453 / 100| < 1 / 200
    ∧ |(8800805216 : ℚ) / 2 ^ 30 - 820 / 100| < 1 / 200 := by
  refine ⟨eval_exl2_spec, ?_, ?_, ?_⟩ <;>
    (rw [abs_sub_lt_iff]; constructor <;> norm_num)

/-- C7: the compute-buffer estimator returns the same numeric result for any
batch size as for batch size 512 (the formula does not mention batch size),
and emits the diagnostic warning exactly once per call when the batch size is
not 512 and never otherwise, without changing the computation. -/
theorem C7_compute_buffer_batch_independent (context : ℚ) (cfg : ModelConfig)
    (bsz : ℚ) :
    (compute_buffer_calc context cfg bsz).2
        = (compute_buffer_calc context cfg 512).2
    ∧ (compute_buffer_calc context cfg bsz).1
        = (if bsz = 512 then 0 else 1) :=
  ⟨rfl, rfl⟩

/-- C8: the scheme listing always returns exactly the twelve names Q2_K,
Q3_K_S, Q3_K_M, Q3_K_L, Q4_0, Q4_K_S, Q4_K_M, Q5_0, Q5_K_S, Q5_K_M, Q6_K,
Q8_0 in that fixed order (it is a pure value, so repeated calls are equal),
and every listed name looks up to a bits-per-weight between 3.35 and 8.5
inclusive. -/
theorem C8_quant_listing (q : String) (hq : q ∈ get_gguf_quants) :
    get_gguf_quants = ["Q2_K", "Q3_K_S", "Q3_K_M", "Q3_K_L", "Q4_0",
      "Q4_K_S", "Q4_K_M", "Q5_0", "Q5_K_S", "Q5_K_M", "Q6_K", "Q8_0"]
    ∧ (3.35 : ℚ) ≤ ggufQuantsGet q ∧ ggufQuantsGet q ≤ 8.5 := by
  rw [show get_gguf_quants = ["Q2_K", "Q3_K_S", "Q3_K_M", "Q3_K_L", "Q4_0",
    "Q4_K_S", "Q4_K_M", "Q5_0", "Q5_K_S", "Q5_K_M", "Q6_K", "Q8_0"]
    from rfl] at hq
  refine ⟨rfl, ?_, ?_⟩ <;> fin_cases hq <;>
    (simp [ggufQuantsGet, GGUF_QUANTS, List.find?] <;> norm_num)

/-- Witness for C8 at the scheme name Q2_K. -/
theorem C8_quant_listing_witness :
    get_gguf_quants = ["Q2_K", "Q3_K_S", "Q3_K_M", "Q3_K_L", "Q4_0",
      "Q4_K_S", "Q4_K_M", "Q5_0", "Q5_K_S", "Q5_K_M", "Q6_K", "Q8_0"]
    ∧ (3.35 : ℚ) ≤ ggufQuantsGet "Q2_K" ∧ ggufQuantsGet "Q2_K" ≤ 8.5 :=
  C8_quant_listing "Q2_K" (by decide)

/-- C3 counterexample: descriptors that violate the claimed Invalid-Value
rules are accepted: with num_attention_heads = 3 not a multiple of
num_key_value_heads = 2, and even with a negative hidden_size, the engine
returns a successful result instead of an Invalid-Value error. -/
theorem C3_validation_counterexample :
    (compute_sizes_exl2 (mkConfig 4096 3 2 32 1000) 1024 16 4).isOk = true
    ∧ (compute_sizes_exl2 (mkConfig (-4096) 3 2 32 1000) 1024 16 4).isOk
        = true := by
  constructor <;>
  · rw [compute_sizes_exl2_ok _ _ _ _ _ _ _ _ (by norm_num) (by norm_num)]
    rfl

/-- C3 amended: if any of the five required fields is absent, both facades
fail synchronously with an exception and produce no result; but no
Invalid-Value check exists: non-positive values and head counts that are not
exact multiples are accepted (see the counterexample), the only other
failure being a ZeroDivisionError on a zero head count. -/
theorem C3_missing_field_fails (cfg : ModelConfig)
    (context cache_bit bpw : ℚ) (q : String) (h : ¬ requiredPresent cfg) :
    (compute_sizes_exl2 cfg context cache_bit bpw).isOk = false
    ∧ (compute_sizes_gguf cfg context q).isOk = false := by
  obtain ⟨f0, f1, f2, f3, f4⟩ := cfg
  rcases f4 with _ | p
  · exact ⟨rfl, rfl⟩
  rcases f0 with _ | hs
  · exact ⟨rfl, rfl⟩
  rcases f1 with _ | nh
  · exact ⟨rfl, rfl⟩
  rcases f2 with _ | nkv
  · exact ⟨rfl, rfl⟩
  rcases f3 with _ | nl
  · by_cases hz : nkv = 0
    · constructor <;>
      · simp [compute_sizes_exl2, compute_sizes_gguf, model_size_calc,
          context_size_calc, input_buffer_calc, kv_cache_calc, getField,
          pyDiv, hz, bind, Except.bind, pure, Except.pure, Except.isOk,
          Except.toBool]
    · by_cases hz2 : nh / nkv = 0
      · constructor <;>
        · simp [compute_sizes_exl2, compute_sizes_gguf, model_size_calc,
            context_size_calc, input_buffer_calc, kv_cache_calc, getField,
            pyDiv, hz, hz2, bind, Except.bind, pure, Except.pure,
            Except.isOk, Except.toBool]
      · constructor <;>
        · simp [compute_sizes_exl2, compute_sizes_gguf, model_size_calc,
            context_size_calc, input_buffer_calc, kv_cache_calc, getField,
            pyDiv, hz, hz2, bind, Except.bind, pure, Except.pure,
            Except.isOk, Except.toBool]
  · exact absurd (by simp [requiredPresent]) h

/-- Witness for C3 amended: a descriptor missing hidden_size makes both
facades fail. -/
theorem C3_missing_field_fails_witness :
    (compute_sizes_exl2 ⟨none, some 32, some 32, some 32, some 1000⟩
        1024 16 4).isOk = false
    ∧ (compute_sizes_gguf ⟨none, some 32, some 32, some 32, some 1000⟩
        1024 "Q4_0").isOk = false :=
  C3_missing_field_fails ⟨none, some 32, some 32, some 32, some 1000⟩
    1024 16 4 "Q4_0" (fun hr => hr.1 rfl)

/-- C4: for every input on which a facade succeeds, the returned total_size
is exactly model_size plus context_size, for both facades. -/
theorem C4_total_equals_sum (cfg : ModelConfig) (context cache_bit bpw : ℚ)
    (q : String) (r1 r2 : SizeResult)
    (h1 : compute_sizes_exl2 cfg context cache_bit bpw = .ok r1)
    (h2 : compute_sizes_gguf cfg context q = .ok r2) :
    r1.total_size = r1.model_size + r1.context_size
    ∧ r2.total_size = r2.model_size + r2.context_size := by
  obtain ⟨m1, c1, -, -, rfl⟩ := compute_sizes_exl2_ok_elim h1
  obtain ⟨m2, c2, -, -, rfl⟩ := compute_sizes_gguf_ok_elim h2
  exact ⟨rfl, rfl⟩

/-- Witness for C4 at the concrete scenario descriptor, context 8192,
cache 16 bits, bpw 4.5 for the explicit-bpw facade and scheme Q4_K_S for the
named-quantization facade. -/
theorem C4_total_equals_sum_witness :
    (⟨3937500000 / 2 ^ 30, 4863305216 / 2 ^ 30, 8800805216 / 2 ^ 30⟩
        : SizeResult).total_size
      = (⟨3937500000 / 2 ^ 30, 4863305216 / 2 ^ 30, 8800805216 / 2 ^ 30⟩
          : SizeResult).model_size
        + (⟨3937500000 / 2 ^ 30, 4863305216 / 2 ^ 30, 8800805216 / 2 ^ 30⟩
          : SizeResult).context_size
    ∧ (⟨4007500000 / 2 ^ 30, 4863305216 / 2 ^ 30, 8870805216 / 2 ^ 30⟩
        : SizeResult).total_size
      = (⟨4007500000 / 2 ^ 30, 4863305216 / 2 ^ 30, 8870805216 / 2 ^ 30⟩
          : SizeResult).model_size
        + (⟨4007500000 / 2 ^ 30, 4863305216 / 2 ^ 30, 8870805216 / 2 ^ 30⟩
          : SizeResult).context_size :=
  C4_total_equals_sum specConfig 8192 16 4.5 "Q4_K_S" _ _
    eval_exl2_spec eval_gguf_spec_Q4KS

/-- C5: for every scheme name that is not a key of the quantization table,
the named-quantization facade uses bits-per-weight 0 and, on any
fully-populated descriptor with nonzero head counts, succeeds with
model_size = 0 instead of raising an error. -/
theorem C5_unknown_scheme_zero_model (hs nh nkv nl p context : ℚ)
    (q : String) (r : SizeResult) (hq : q ∉ get_gguf_quants)
    (h : compute_sizes_gguf (mkConfig hs nh nkv nl p) context q = .ok r) :
    ggufQuantsGet q = 0
    ∧ (compute_sizes_gguf (mkConfig hs nh nkv nl p) context q).isOk = true
    ∧ r.model_size = 0 := by
  have hfind : GGUF_QUANTS.find? (fun pr => pr.1 == q) = none := by
    rw [List.find?_eq_none]
    intro pr hpr
    simp only [beq_iff_eq]
    exact fun he => hq (he ▸ List.mem_map_of_mem Prod.fst hpr)
  have hget : ggufQuantsGet q = 0 := by
    unfold ggufQuantsGet
    rw [hfind]
    rfl
  refine ⟨hget, by rw [h]; rfl, ?_⟩
  obtain ⟨m, c, hm, -, rfl⟩ := compute_sizes_gguf_ok_elim h
  rw [mkConfig, model_size_calc_ok, Except.ok.injEq] at hm
  show m / 2 ^ 30 = 0
  rw [← hm, hget]
  rw [show p * 0 / 8 = ((0 : ℤ) : ℚ) by norm_num, pyRound2_intCast]
  norm_num

/-- Witness for C5 at the unknown scheme name Q4 on a small valid
descriptor. -/
theorem C5_unknown_scheme_zero_model_witness :
    ggufQuantsGet "Q4" = 0
    ∧ (compute_sizes_gguf (mkConfig 4096 32 32 32 1000) 1024 "Q4").isOk
        = true
    ∧ (⟨0, 631769600 / 2 ^ 30, 631769600 / 2 ^ 30⟩ : SizeResult).model_size
        = 0 :=
  C5_unknown_scheme_zero_model 4096 32 32 32 1000 1024 "Q4" _
    (by decide) eval_gguf_small_unknown

/-- C6: for a fixed fully-populated descriptor with positive fields, a
nonnegative batch size and cache bit-width, the context-size composer is
monotonically non-decreasing in context_length, the rounding to two decimal
places included. -/
theorem C6_context_size_monotone
    (hs nh nkv nl p bsz cache_bit c1 c2 v1 v2 : ℚ)
    (hhs : 0 < hs) (hnh : 0 < nh) (hnkv : 0 < nkv) (hnl : 0 < nl)
    (hbsz : 0 ≤ bsz) (hcb : 0 ≤ cache_bit) (hc : c1 ≤ c2)
    (h1 : context_size_calc c1 (mkConfig hs nh nkv nl p) bsz cache_bit
        = .ok v1)
    (h2 : context_size_calc c2 (mkConfig hs nh nkv nl p) bsz cache_bit
        = .ok v2) :
    v1 ≤ v2 := by
  have hnkv' : nkv ≠ 0 := ne_of_gt hnkv
  have hgqa : nh / nkv ≠ 0 := div_ne_zero (ne_of_gt hnh) hnkv'
  rw [mkConfig, context_size_calc_ok _ _ _ _ _ _ _ _ hnkv' hgqa,
    Except.ok.injEq] at h1 h2
  subst h1
  subst h2
  apply pyRound2_mono
  have hA : 0 < hs / (nh / nkv) := div_pos hhs (div_pos hnh hnkv)
  have hs1 : 0 ≤ hs / (nh / nkv) * nl * cache_bit / 4 :=
    div_nonneg (mul_nonneg (mul_nonneg hA.le hnl.le) hcb) (by norm_num)
  have key : ((bsz + hs * bsz + bsz + c2 * bsz + c2 + bsz)
        + 2 * (hs / (nh / nkv) * (nl * c2)) * (cache_bit / 8)
        + (c2 / 1024 * 2 + 3/4) * nh * 1024 * 1024)
      - ((bsz + hs * bsz + bsz + c1 * bsz + c1 + bsz)
        + 2 * (hs / (nh / nkv) * (nl * c1)) * (cache_bit / 8)
        + (c1 / 1024 * 2 + 3/4) * nh * 1024 * 1024)
    = (c2 - c1) * (bsz + 1 + hs / (nh / nkv) * nl * cache_bit / 4
        + 2048 * nh) := by ring
  have hslope : 0 ≤ bsz + 1 + hs / (nh / nkv) * nl * cache_bit / 4
      + 2048 * nh := by nlinarith
  have hprod := mul_nonneg (sub_nonneg.mpr hc) hslope
  linarith

/-- Witness for C6: at the scenario descriptor with batch 512 and 16-bit
cache, growing the context from 1024 to 8192 grows the context size from
631769600 to 4863305216 bytes. -/
theorem C6_context_size_monotone_witness : (631769600 : ℚ) ≤ 4863305216 :=
  C6_context_size_monotone 4096 32 32 32 7000000000 512 16 1024 8192
    631769600 4863305216 (by norm_num) (by norm_num) (by norm_num)
    (by norm_num) (by norm_num) (by norm_num) (by norm_num)
    eval_ctx_1024 eval_ctx_8192

/-- C9: in the explicit-bpw facade, for a fixed descriptor and context,
changing bits-per-weight leaves context_size unchanged, and changing the
cache bit-width leaves model_size unchanged. -/
theorem C9_exl2_frame (cfg : ModelConfig)
    (context cb cb1 cb2 bpw bpw1 bpw2 : ℚ) (r1 r2 r3 r4 : SizeResult)
    (h1 : compute_sizes_exl2 cfg context cb bpw1 = .ok r1)
    (h2 : compute_sizes_exl2 cfg context cb bpw2 = .ok r2)
    (h3 : compute_sizes_exl2 cfg context cb1 bpw = .ok r3)
    (h4 : compute_sizes_exl2 cfg context cb2 bpw = .ok r4) :
    r1.context_size = r2.context_size ∧ r3.model_size = r4.model_size := by
  obtain ⟨m1, c1, -, hc1, rfl⟩ := compute_sizes_exl2_ok_elim h1
  obtain ⟨m2, c2, -, hc2, rfl⟩ := compute_sizes_exl2_ok_elim h2
  obtain ⟨m3, c3, hm3, -, rfl⟩ := compute_sizes_exl2_ok_elim h3
  obtain ⟨m4, c4, hm4, -, rfl⟩ := compute_sizes_exl2_ok_elim h4
  have hcc : c1 = c2 := by
    have hx := hc1.symm.trans hc2
    simpa using hx
  have hmm : m3 = m4 := by
    have hx := hm3.symm.trans hm4
    simpa using hx
  exact ⟨by rw [hcc], by rw [hmm]⟩

/-- Witness for C9 at the scenario descriptor, context 8192: bpw 4.5 versus
5 at cache 16 (same context_size), and cache 16 versus 8 at bpw 4.5 (same
model_size). -/
theorem C9_exl2_frame_witness :
    (⟨3937500000 / 2 ^ 30, 4863305216 / 2 ^ 30, 8800805216 / 2 ^ 30⟩
        : SizeResult).context_size
      = (⟨4375000000 / 2 ^ 30, 4863305216 / 2 ^ 30, 9238305216 / 2 ^ 30⟩
        : SizeResult).context_size
    ∧ (⟨3937500000 / 2 ^ 30, 4863305216 / 2 ^ 30, 8800805216 / 2 ^ 30⟩
        : SizeResult).model_size
      = (⟨3937500000 / 2 ^ 30, 2715821568 / 2 ^ 30, 6653321568 / 2 ^ 30⟩
        : SizeResult).model_size :=
  C9_exl2_frame specConfig 8192 16 16 8 4.5 4.5 5 _ _ _ _
    eval_exl2_spec eval_exl2_spec_bpw5 eval_exl2_spec eval_exl2_spec_cache8

/-- C10: calling the named-quantization facade with its default scheme
argument, the empty string, which is not a key of the quantization table,
returns model_size 0 and total_size equal to context_size. -/
theorem C10_default_scheme_zero (hs nh nkv nl p context : ℚ)
    (r : SizeResult)
    (h : compute_sizes_gguf (mkConfig hs nh nkv nl p) context "" = .ok r) :
    "" ∉ get_gguf_quants ∧ r.model_size = 0
    ∧ r.total_size = r.context_size := by
  obtain ⟨m, c, hm, -, rfl⟩ := compute_sizes_gguf_ok_elim h
  rw [mkConfig, model_size_calc_ok, Except.ok.injEq] at hm
  have hm0 : m = 0 := by
    rw [← hm, show ggufQuantsGet "" = 0 from rfl]
    rw [show p * 0 / 8 = ((0 : ℤ) : ℚ) by norm_num, pyRound2_intCast]
    norm_num
  refine ⟨by decide, ?_, ?_⟩
  · show m / 2 ^ 30 = 0
    rw [hm0]; norm_num
  · show m / 2 ^ 30 + c / 2 ^ 30 = c / 2 ^ 30
    rw [hm0]; norm_num

/-- Witness for C10 on a small valid descriptor at context 1024. -/
theorem C10_default_scheme_zero_witness :
    "" ∉ get_gguf_quants
    ∧ (⟨0, 631769600 / 2 ^ 30, 631769600 / 2 ^ 30⟩
        : SizeResult).model_size = 0
    ∧ (⟨0, 631769600 / 2 ^ 30, 631769600 / 2 ^ 30⟩
        : SizeResult).total_size
      = (⟨0, 631769600 / 2 ^ 30, 631769600 / 2 ^ 30⟩
        : SizeResult).context_size :=
  C10_default_scheme_zero 4096 32 32 32 1000 1024 _
    eval_gguf_small_default
